import Mathlib

/-!
Verification of the hasher CLI (src/hash.py).

The program reads the environment variables DATA and ALGO, validates them,
hashes the UTF-8 encoding of DATA with the selected algorithm (sha256 by
default, md5 the only alternative), and prints either a JSON result line
(exit 0) or an `Error: <message>` line (exit 1), both to standard output.

The embedding below models the program as pure functions:
  - `utf8Encode` models `str.encode` with encoding utf-8 (the byte encoding
    of the payload, each byte a `Nat` below 256);
  - `sha256Bytes` and `md5Bytes` model the two `hashlib` digest primitives
    the program is allowed to dispatch to (FIPS 180-4 SHA-256 and RFC 1321
    MD5, byte-level, on full in-memory messages);
  - `hexdigest` models `hash_obj.hexdigest()` (lowercase hex);
  - `mainFn` models the function `main` of src/hash.py, returning the
    fields of the result dict on success and the exception message on
    failure (the name `main` itself is reserved by Lean for entry points);
  - `run` models the `__main__` guard: the single stdout line and the
    process exit status.
-/

/-- 2^32, the word modulus of both hash algorithms. -/
def M32 : Nat := 4294967296

/-- Addition modulo 2^32. -/
def add32 (a b : Nat) : Nat := (a + b) % M32

/-- Right rotation of a 32-bit word (input assumed below 2^32). -/
def rotr32 (x n : Nat) : Nat := (x >>> n) ||| ((x <<< (32 - n)) % M32)

/-- Left rotation of a 32-bit word (input assumed below 2^32). -/
def rotl32 (x n : Nat) : Nat := ((x <<< n) % M32) ||| (x >>> (32 - n))

/-- UTF-8 encoding of a single Unicode code point, as bytes. -/
def utf8Bytes (c : Nat) : List Nat :=
  if c < 128 then [c]
  else if c < 2048 then [192 + c / 64, 128 + c % 64]
  else if c < 65536 then [224 + c / 4096, 128 + c / 64 % 64, 128 + c % 64]
  else [240 + c / 262144, 128 + c / 4096 % 64, 128 + c / 64 % 64, 128 + c % 64]

/-- Models `data.encode(` with utf-8 `)` from src/hash.py line 24: the UTF-8
byte sequence of a string. -/
def utf8Encode (s : String) : List Nat :=
  (s.data.map (fun ch => utf8Bytes ch.toNat)).flatten

/-- Lowercase hexadecimal digit for a value below 16. -/
def hexChar (n : Nat) : Char :=
  if n < 10 then Char.ofNat (48 + n) else Char.ofNat (87 + n)

/-- Bytes to lowercase hex characters, two per byte, high nibble first. -/
def bytesToHex : List Nat → List Char
  | [] => []
  | b :: bs => hexChar (b / 16 % 16) :: hexChar (b % 16) :: bytesToHex bs

/-- Models `hash_obj.hexdigest()`: the lowercase hex rendering of a digest. -/
def hexdigest (bytes : List Nat) : String := String.mk (bytesToHex bytes)

/-- Big-endian 32-bit words from bytes (length assumed a multiple of 4). -/
def beWords : List Nat → List Nat
  | b0 :: b1 :: b2 :: b3 :: rest =>
      (((b0 * 256 + b1) * 256 + b2) * 256 + b3) :: beWords rest
  | _ => []

/-- Little-endian 32-bit words from bytes (length assumed a multiple of 4). -/
def leWords : List Nat → List Nat
  | b0 :: b1 :: b2 :: b3 :: rest =>
      (((b3 * 256 + b2) * 256 + b1) * 256 + b0) :: leWords rest
  | _ => []

/-- Split a word list into 16-word blocks (length assumed a multiple of 16). -/
def chunk16 : List Nat → List (List Nat)
  | a0 :: a1 :: a2 :: a3 :: a4 :: a5 :: a6 :: a7 ::
    a8 :: a9 :: a10 :: a11 :: a12 :: a13 :: a14 :: a15 :: rest =>
      [a0, a1, a2, a3, a4, a5, a6, a7, a8, a9, a10, a11, a12, a13, a14, a15]
        :: chunk16 rest
  | _ => []

/-- A 64-bit length rendered as 8 big-endian bytes (SHA-256 padding). -/
def lenBE (n : Nat) : List Nat :=
  [n / 72057594037927936 % 256, n / 281474976710656 % 256,
   n / 1099511627776 % 256, n / 4294967296 % 256,
   n / 16777216 % 256, n / 65536 % 256, n / 256 % 256, n % 256]

/-- A 64-bit length rendered as 8 little-endian bytes (MD5 padding). -/
def lenLE (n : Nat) : List Nat :=
  [n % 256, n / 256 % 256, n / 65536 % 256, n / 16777216 % 256,
   n / 4294967296 % 256, n / 1099511627776 % 256,
   n / 281474976710656 % 256, n / 72057594037927936 % 256]

/-- Merkle–Damgård padding, big-endian bit length (SHA-256). -/
def padBE (msg : List Nat) : List Nat :=
  msg ++ 128 :: List.replicate ((119 - msg.length % 64) % 64) 0
    ++ lenBE (8 * msg.length)

/-- Merkle–Damgård padding, little-endian bit length (MD5). -/
def padLE (msg : List Nat) : List Nat :=
  msg ++ 128 :: List.replicate ((119 - msg.length % 64) % 64) 0
    ++ lenLE (8 * msg.length)

/-- A word rendered as 4 big-endian bytes. -/
def wordBE (w : Nat) : List Nat :=
  [w / 16777216 % 256, w / 65536 % 256, w / 256 % 256, w % 256]

/-- A word rendered as 4 little-endian bytes. -/
def wordLE (w : Nat) : List Nat :=
  [w % 256, w / 256 % 256, w / 65536 % 256, w / 16777216 % 256]

/-- The eight 32-bit working variables of SHA-256. -/
structure Hash8 where
  a : Nat
  b : Nat
  c : Nat
  d : Nat
  e : Nat
  f : Nat
  g : Nat
  h : Nat

/-- SHA-256 initial hash value (FIPS 180-4 §5.3.3). -/
def shaInit : Hash8 :=
  ⟨1779033703, 3144134277, 1013904242, 2773480762,
   1359893119, 2600822924, 528734635, 1541459225⟩

/-- SHA-256 round constants (FIPS 180-4 §4.2.2). -/
def shaK : List Nat :=
  [1116352408, 1899447441, 3049323471, 3921009573,
   961987163, 1508970993, 2453635748, 2870763221,
   3624381080, 310598401, 607225278, 1426881987,
   1925078388, 2162078206, 2614888103, 3248222580,
   3835390401, 4022224774, 264347078, 604807628,
   770255983, 1249150122, 1555081692, 1996064986,
   2554220882, 2821834349, 2952996808, 3210313671,
   3336571891, 3584528711, 113926993, 338241895,
   666307205, 773529912, 1294757372, 1396182291,
   1695183700, 1986661051, 2177026350, 2456956037,
   2730485921, 2820302411, 3259730800, 3345764771,
   3516065817, 3600352804, 4094571909, 275423344,
   430227734, 506948616, 659060556, 883997877,
   958139571, 1322822218, 1537002063, 1747873779,
   1955562222, 2024104815, 2227730452, 2361852424,
   2428436474, 2756734187, 3204031479, 3329325298]

/-- SHA-256 σ0 message-schedule function. -/
def smallSigma0 (x : Nat) : Nat :=
  (rotr32 x 7) ^^^ (rotr32 x 18) ^^^ (x >>> 3)

/-- SHA-256 σ1 message-schedule function. -/
def smallSigma1 (x : Nat) : Nat :=
  (rotr32 x 17) ^^^ (rotr32 x 19) ^^^ (x >>> 10)

/-- SHA-256 Σ0 compression function. -/
def bigSigma0 (x : Nat) : Nat :=
  (rotr32 x 2) ^^^ (rotr32 x 13) ^^^ (rotr32 x 22)

/-- SHA-256 Σ1 compression function. -/
def bigSigma1 (x : Nat) : Nat :=
  (rotr32 x 6) ^^^ (rotr32 x 11) ^^^ (rotr32 x 25)

/-- SHA-256 Ch function. -/
def shaCh (x y z : Nat) : Nat := (x &&& y) ^^^ ((x ^^^ 4294967295) &&& z)

/-- SHA-256 Maj function. -/
def shaMaj (x y z : Nat) : Nat := (x &&& y) ^^^ (x &&& z) ^^^ (y &&& z)

/-- Message-schedule extension: `acc` holds the schedule so far, most recent
word first; each step conses one new word. -/
def shaSchedAux : Nat → List Nat → List Nat
  | 0, acc => acc.reverse
  | n + 1, acc =>
      shaSchedAux n
        (add32 (add32 (smallSigma1 (acc.getD 1 0)) (acc.getD 6 0))
          (add32 (smallSigma0 (acc.getD 14 0)) (acc.getD 15 0)) :: acc)

/-- The 64-word SHA-256 message schedule of a 16-word block. -/
def shaSchedule (ws : List Nat) : List Nat := shaSchedAux 48 ws.reverse

/-- One SHA-256 round: fold the working variables over a (constant, word)
pair. -/
def shaRound (st : Hash8) (kw : Nat × Nat) : Hash8 :=
  let t1 := add32 st.h (add32 (bigSigma1 st.e)
    (add32 (shaCh st.e st.f st.g) (add32 kw.1 kw.2)))
  let t2 := add32 (bigSigma0 st.a) (shaMaj st.a st.b st.c)
  ⟨add32 t1 t2, st.a, st.b, st.c, add32 st.d t1, st.e, st.f, st.g⟩

/-- SHA-256 compression of one 16-word block into the chaining value. -/
def shaCompress (st : Hash8) (block : List Nat) : Hash8 :=
  let w := shaSchedule block
  let r := (shaK.zip w).foldl shaRound st
  ⟨add32 st.a r.a, add32 st.b r.b, add32 st.c r.c, add32 st.d r.d,
   add32 st.e r.e, add32 st.f r.f, add32 st.g r.g, add32 st.h r.h⟩

/-- SHA-256 of a byte sequence, as the 32 digest bytes (FIPS 180-4). Models
the `hashlib` sha256 primitive used by src/hash.py. -/
def sha256Bytes (msg : List Nat) : List Nat :=
  let r := (chunk16 (beWords (padBE msg))).foldl shaCompress shaInit
  wordBE r.a ++ wordBE r.b ++ wordBE r.c ++ wordBE r.d ++
    wordBE r.e ++ wordBE r.f ++ wordBE r.g ++ wordBE r.h

/-- The four 32-bit working variables of MD5. -/
structure Md5State where
  a : Nat
  b : Nat
  c : Nat
  d : Nat

/-- MD5 initial state (RFC 1321 §3.3). -/
def md5Init : Md5State := ⟨0x67452301, 0xefcdab89, 0x98badcfe, 0x10325476⟩

/-- MD5 sine-table constants T[1..64] (RFC 1321 §3.4). -/
def md5T : List Nat :=
  [0xd76aa478, 0xe8c7b756, 0x242070db, 0xc1bdceee,
   0xf57c0faf, 0x4787c62a, 0xa8304613, 0xfd469501,
   0x698098d8, 0x8b44f7af, 0xffff5bb1, 0x895cd7be,
   0x6b901122, 0xfd987193, 0xa679438e, 0x49b40821,
   0xf61e2562, 0xc040b340, 0x265e5a51, 0xe9b6c7aa,
   0xd62f105d, 0x02441453, 0xd8a1e681, 0xe7d3fbc8,
   0x21e1cde6, 0xc33707d6, 0xf4d50d87, 0x455a14ed,
   0xa9e3e905, 0xfcefa3f8, 0x676f02d9, 0x8d2a4c8a,
   0xfffa3942, 0x8771f681, 0x6d9d6122, 0xfde5380c,
   0xa4beea44, 0x4bdecfa9, 0xf6bb4b60, 0xbebfbc70,
   0x289b7ec6, 0xeaa127fa, 0xd4ef3085, 0x04881d05,
   0xd9d4d039, 0xe6db99e5, 0x1fa27cf8, 0xc4ac5665,
   0xf4292244, 0x432aff97, 0xab9423a7, 0xfc93a039,
   0x655b59c3, 0x8f0ccc92, 0xffeff47d, 0x85845dd1,
   0x6fa87e4f, 0xfe2ce6e0, 0xa3014314, 0x4e0811a1,
   0xf7537e82, 0xbd3af235, 0x2ad7d2bb, 0xeb86d391]

/-- MD5 per-step left-rotation amounts (RFC 1321 §3.4). -/
def md5S : List Nat :=
  [7, 12, 17, 22, 7, 12, 17, 22, 7, 12, 17, 22, 7, 12, 17, 22,
   5, 9, 14, 20, 5, 9, 14, 20, 5, 9, 14, 20, 5, 9, 14, 20,
   4, 11, 16, 23, 4, 11, 16, 23, 4, 11, 16, 23, 4, 11, 16, 23,
   6, 10, 15, 21, 6, 10, 15, 21, 6, 10, 15, 21, 6, 10, 15, 21]

/-- One MD5 step `i` of 64 on block words `x` (RFC 1321 §3.4). -/
def md5Step (x : List Nat) (st : Md5State) (i : Nat) : Md5State :=
  let f :=
    if i < 16 then (st.b &&& st.c) ||| ((st.b ^^^ 4294967295) &&& st.d)
    else if i < 32 then (st.b &&& st.d) ||| (st.c &&& (st.d ^^^ 4294967295))
    else if i < 48 then st.b ^^^ st.c ^^^ st.d
    else st.c ^^^ (st.b ||| (st.d ^^^ 4294967295))
  let k :=
    if i < 16 then i
    else if i < 32 then (5 * i + 1) % 16
    else if i < 48 then (3 * i + 5) % 16
    else (7 * i) % 16
  let r := rotl32 (add32 st.a (add32 f (add32 (x.getD k 0) (md5T.getD i 0))))
    (md5S.getD i 0)
  ⟨st.d, add32 st.b r, st.b, st.c⟩

/-- MD5 compression of one 16-word block into the chaining value. -/
def md5Compress (st : Md5State) (block : List Nat) : Md5State :=
  let r := (List.range 64).foldl (md5Step block) st
  ⟨add32 st.a r.a, add32 st.b r.b, add32 st.c r.c, add32 st.d r.d⟩

/-- MD5 of a byte sequence, as the 16 digest bytes (RFC 1321). Models the
`hashlib` md5 primitive used by src/hash.py. -/
def md5Bytes (msg : List Nat) : List Nat :=
  let r := (chunk16 (leWords (padLE msg))).foldl md5Compress md5Init
  wordLE r.a ++ wordLE r.b ++ wordLE r.c ++ wordLE r.d

/-- The algorithm allow-list, src/hash.py line 6. -/
def SUPPORTED_HASH_ALGORITHMS : List String := ["sha256", "md5"]

/-- The dispatch performed by `hashlib.new(algo)` for the two names the
program can reach after validation. -/
def hashBytes (algo : String) (msg : List Nat) : List Nat :=
  if algo = "sha256" then sha256Bytes msg else md5Bytes msg

/-- The message of the `ValueError` raised at src/hash.py line 20: the
f-string interpolates the offending value and the Python list repr of
`SUPPORTED_HASH_ALGORITHMS`. -/
def unsupportedMsg (algo : String) : String :=
  "Unsupported hash algorithm: " ++ algo ++ " not in [\x27sha256\x27, \x27md5\x27]"

/-- The message of the `ValueError` raised at src/hash.py line 13. -/
def missingDataMsg : String := "A data argument must be provided"

/-- Models `main` of src/hash.py on the environment values of DATA and ALGO
(`none` = variable unset). Success carries the fields of the printed dict,
`(algo, hex digest)`; failure carries the exception message. `not data` is
true exactly when DATA is unset or empty; `os.getenv` with a default
substitutes `sha256` only when ALGO is unset. -/
def mainFn : Option String → Option String → Except String (String × String)
  | none, _ => Except.error missingDataMsg
  | some data, algoEnv =>
    if data = "" then Except.error missingDataMsg
    else
      let algo := algoEnv.getD "sha256"
      if algo ∈ SUPPORTED_HASH_ALGORITHMS then
        Except.ok (algo, hexdigest (hashBytes algo (utf8Encode data)))
      else
        Except.error (unsupportedMsg algo)

/-- Models `json.dumps` of the two-key result dict at src/hash.py lines
29-32, for key and value strings that need no JSON escaping (the program
only ever serializes an allow-listed algorithm name and a hex digest). -/
def jsonLine (algo hx : String) : String :=
  "\x7b\"algo\": \"" ++ algo ++ "\", \"hash\": \"" ++ hx ++ "\"\x7d"

/-- Models the `__main__` guard of src/hash.py lines 35-41: the single line
written to standard output, paired with the process exit status. -/
def run (dataEnv algoEnv : Option String) : String × Nat :=
  match mainFn dataEnv algoEnv with
  | Except.ok r => (jsonLine r.1 r.2, 0)
  | Except.error e => ("Error: " ++ e, 1)

/-- Python falsiness of the optional DATA value (`not data`): unset or
empty. -/
def dataFalsy : Option String → Bool
  | none => true
  | some s => s == ""

/-- Lowercase hexadecimal digit test. -/
def lowerHexChar (c : Char) : Bool :=
  (decide ((48 : Nat) ≤ c.toNat) && decide (c.toNat ≤ 57)) ||
    (decide ((97 : Nat) ≤ c.toNat) && decide (c.toNat ≤ 102))

/-- Whether `p` occurs as a contiguous run inside `s` (character lists). -/
def hasSub : List Char → List Char → Bool
  | p, [] => p.isEmpty
  | p, c :: cs => p.isPrefixOf (c :: cs) || hasSub p cs

/-- Whether the string `p` occurs as a substring of `s`. -/
def strHas (p s : String) : Bool := hasSub p.data s.data

lemma isPrefixOf_self_append (p r : List Char) : p.isPrefixOf (p ++ r) = true := by
  induction p with
  | nil => simp [List.isPrefixOf]
  | cons a as ih => simp [List.isPrefixOf, ih]

lemma hasSub_self_append (p r : List Char) : hasSub p (p ++ r) = true := by
  cases p with
  | nil =>
      cases r with
      | nil => rfl
      | cons c cs => simp [hasSub, List.isPrefixOf]
  | cons a as => simp [hasSub, isPrefixOf_self_append]

lemma hasSub_append_left (l p r : List Char) (h : hasSub p r = true) :
    hasSub p (l ++ r) = true := by
  induction l with
  | nil => simpa using h
  | cons x xs ih => simp [hasSub, ih]

lemma hasSub_middle (l p r : List Char) : hasSub p (l ++ (p ++ r)) = true :=
  hasSub_append_left l p (p ++ r) (hasSub_self_append p r)

lemma bytesToHex_length (l : List Nat) : (bytesToHex l).length = 2 * l.length := by
  induction l with
  | nil => rfl
  | cons b bs ih => simp [bytesToHex, ih]; omega

lemma sha256Bytes_length (msg : List Nat) : (sha256Bytes msg).length = 32 := by
  simp [sha256Bytes, wordBE]

lemma md5Bytes_length (msg : List Nat) : (md5Bytes msg).length = 16 := by
  simp [md5Bytes, wordLE]

lemma hexChar_lower (n : Nat) : lowerHexChar (hexChar (n % 16)) = true := by
  have hb : ∀ m, m < 16 → lowerHexChar (hexChar m) = true := by decide
  exact hb _ (Nat.mod_lt _ (by decide))

lemma bytesToHex_hex (l : List Nat) : (bytesToHex l).all lowerHexChar = true := by
  induction l with
  | nil => rfl
  | cons b bs ih => simp [bytesToHex, ih, hexChar_lower]

set_option maxRecDepth 8192

/-- C1: with DATA="hello" and ALGO unset the program prints exactly the JSON
line with algo sha256 and the 64-hex sha256 digest of "hello", and with
DATA="hello", ALGO="md5" exactly the JSON line with algo md5 and the md5
digest of "hello"; both runs exit with status 0. -/
theorem concrete_hello_runs :
    run (some "hello") none =
      ("\x7b\"algo\": \"sha256\", \"hash\": \"2cf24dba5fb0a30e26e83b2ac5b9e29e1b161e5c1fa7425e73043362938b9824\"\x7d", 0) ∧
    run (some "hello") (some "md5") =
      ("\x7b\"algo\": \"md5\", \"hash\": \"5d41402abc4b2a76b9719d911017c592\"\x7d", 0) :=
  ⟨by rfl, by decide⟩

/-- C2: for every text payload and any algorithm environment that resolves
to a supported name, the program succeeds and the hash field is the selected
digest applied to the UTF-8 byte encoding of the payload (so non-ASCII
payloads are hashed over their multi-byte UTF-8 form, not code points). -/
theorem digest_over_utf8_bytes (d : String) (algoEnv : Option String)
    (hd : d ≠ "") (ha : algoEnv.getD "sha256" ∈ SUPPORTED_HASH_ALGORITHMS) :
    mainFn (some d) algoEnv =
      Except.ok (algoEnv.getD "sha256",
        hexdigest (hashBytes (algoEnv.getD "sha256") (utf8Encode d))) := by
  simp [mainFn, hd, ha]

/-- Witness for C2 at the non-ASCII payload "é" (UTF-8 bytes c3 a9). -/
theorem digest_over_utf8_bytes_witness :
    mainFn (some "é") none =
      Except.ok ("sha256", hexdigest (hashBytes "sha256" (utf8Encode "é"))) :=
  digest_over_utf8_bytes "é" none (by decide) (by decide)

/-- C3: for every non-empty payload, running with ALGO unset produces the
same stdout line and exit status as running with ALGO="sha256". -/
theorem default_algo_is_sha256 (d : String) (hd : d ≠ "") :
    run (some d) none = run (some d) (some "sha256") := rfl

/-- Witness for C3 at DATA="hello". -/
theorem default_algo_is_sha256_witness :
    run (some "hello") none = run (some "hello") (some "sha256") :=
  default_algo_is_sha256 "hello" (by decide)

/-- C4: for every algorithm value outside the allow-list and every non-empty
payload, the program emits an Error line carrying the unsupported-algorithm
message and exits with status 1, and that message contains the offending
value and both supported names sha256 and md5. -/
theorem unsupported_algo_error_message (a : String)
    (ha : a ∉ SUPPORTED_HASH_ALGORITHMS) (d : String) (hd : d ≠ "") :
    run (some d) (some a) = ("Error: " ++ unsupportedMsg a, 1) ∧
      strHas a (unsupportedMsg a) = true ∧
      strHas "sha256" (unsupportedMsg a) = true ∧
      strHas "md5" (unsupportedMsg a) = true := by
  refine ⟨by simp [run, mainFn, hd, ha], ?_, ?_, ?_⟩
  · show hasSub a.data (unsupportedMsg a).data = true
    have he : (unsupportedMsg a).data =
        "Unsupported hash algorithm: ".data ++
          (a.data ++ " not in [\x27sha256\x27, \x27md5\x27]".data) := by
      simp [unsupportedMsg, String.data_append]
    rw [he]
    exact hasSub_middle _ _ _
  · show hasSub "sha256".data (unsupportedMsg a).data = true
    have he : (unsupportedMsg a).data =
        "Unsupported hash algorithm: ".data ++
          (a.data ++ " not in [\x27sha256\x27, \x27md5\x27]".data) := by
      simp [unsupportedMsg, String.data_append]
    rw [he]
    exact hasSub_append_left _ _ _ (hasSub_append_left _ _ _ (by decide))
  · show hasSub "md5".data (unsupportedMsg a).data = true
    have he : (unsupportedMsg a).data =
        "Unsupported hash algorithm: ".data ++
          (a.data ++ " not in [\x27sha256\x27, \x27md5\x27]".data) := by
      simp [unsupportedMsg, String.data_append]
    rw [he]
    exact hasSub_append_left _ _ _ (hasSub_append_left _ _ _ (by decide))

/-- Witness for C4 at ALGO="sha1", DATA="x" (the spec's fourth scenario). -/
theorem unsupported_algo_error_message_witness :
    run (some "x") (some "sha1") = ("Error: " ++ unsupportedMsg "sha1", 1) ∧
      strHas "sha1" (unsupportedMsg "sha1") = true ∧
      strHas "sha256" (unsupportedMsg "sha1") = true ∧
      strHas "md5" (unsupportedMsg "sha1") = true :=
  unsupported_algo_error_message "sha1" (by decide) "x" (by decide)

/-- C5: whenever DATA is unset or empty, the program writes the single
missing-data Error line (a handled report, not a crash) and exits with
status 1; in particular no JSON success line is produced. -/
theorem missing_data_error (dataEnv : Option String)
    (h : dataFalsy dataEnv = true) (algoEnv : Option String) :
    run dataEnv algoEnv = ("Error: " ++ missingDataMsg, 1) := by
  cases dataEnv with
  | none => rfl
  | some s =>
      have hs : s = "" := by simpa [dataFalsy] using h
      subst hs
      rfl

/-- Witness for C5 with DATA unset. -/
theorem missing_data_error_witness :
    run none none = ("Error: " ++ missingDataMsg, 1) :=
  missing_data_error none rfl none

/-- C6: every invocation produces exactly one of the two output forms on
stdout: a JSON result line with the two keys algo and hash together with
exit status 0, or a plain `Error: <message>` line together with exit
status 1. -/
theorem output_forms_dichotomy (dataEnv algoEnv : Option String) :
    (∃ a hx, run dataEnv algoEnv = (jsonLine a hx, 0)) ∨
    (∃ msg, run dataEnv algoEnv = ("Error: " ++ msg, 1)) := by
  cases hm : mainFn dataEnv algoEnv with
  | error e => exact Or.inr ⟨e, by simp [run, hm]⟩
  | ok r => exact Or.inl ⟨r.1, r.2, by simp [run, hm]⟩

/-- C7: every successful invocation reports an algo field from the
allow-list and a hash field that is all lowercase hex, 64 characters long
for sha256 and 32 for md5. -/
theorem success_result_invariants (dataEnv algoEnv : Option String)
    (a hx : String) (hok : mainFn dataEnv algoEnv = Except.ok (a, hx)) :
    a ∈ SUPPORTED_HASH_ALGORITHMS ∧ hx.data.all lowerHexChar = true ∧
      (a = "sha256" → hx.length = 64) ∧ (a = "md5" → hx.length = 32) := by
  cases dataEnv with
  | none => simp [mainFn] at hok
  | some data =>
      by_cases hdd : data = ""
      · simp [mainFn, hdd] at hok
      · by_cases hmem : (algoEnv.getD "sha256") ∈ SUPPORTED_HASH_ALGORITHMS
        · simp [mainFn, hdd, hmem] at hok
          obtain ⟨ha, hh⟩ := hok
          subst ha
          subst hh
          refine ⟨hmem, bytesToHex_hex _, ?_, ?_⟩
          · intro hs
            rw [hs]
            show (bytesToHex (hashBytes "sha256" (utf8Encode data))).length = 64
            rw [bytesToHex_length]
            simp [hashBytes, sha256Bytes_length]
          · intro hs
            rw [hs]
            show (bytesToHex (hashBytes "md5" (utf8Encode data))).length = 32
            rw [bytesToHex_length]
            simp [hashBytes, md5Bytes_length]
        · simp [mainFn, hdd, hmem] at hok

/-- Witness for C7 at the successful run with DATA="hello", ALGO unset. -/
theorem success_result_invariants_witness :
    "sha256" ∈ SUPPORTED_HASH_ALGORITHMS ∧
      (hexdigest (hashBytes "sha256" (utf8Encode "hello"))).data.all
        lowerHexChar = true ∧
      ("sha256" = "sha256" →
        (hexdigest (hashBytes "sha256" (utf8Encode "hello"))).length = 64) ∧
      ("sha256" = "md5" →
        (hexdigest (hashBytes "sha256" (utf8Encode "hello"))).length = 32) :=
  success_result_invariants (some "hello") none "sha256"
    (hexdigest (hashBytes "sha256" (utf8Encode "hello"))) rfl

/-- C8: the program is deterministic: two runs with the same supported
algorithm and the same non-empty payload produce the same (stdout line,
exit status) pair, the embedding being a pure function of its inputs. -/
theorem run_deterministic (a : String) (ha : a ∈ SUPPORTED_HASH_ALGORITHMS)
    (d : String) (hd : d ≠ "") :
    run (some d) (some a) = run (some d) (some a) := rfl

/-- Witness for C8 at ALGO="md5", DATA="hello". -/
theorem run_deterministic_witness :
    run (some "hello") (some "md5") = run (some "hello") (some "md5") :=
  run_deterministic "md5" (by decide) "hello" (by decide)

/-- C9: when ALGO is set to the empty string and DATA is non-empty, the
program does not fall back to the sha256 default: the empty string fails the
allow-list test, so the run reports the unsupported-algorithm error (with
the empty offending value interpolated) and exits with status 1. -/
theorem empty_algo_no_default (d : String) (hd : d ≠ "") :
    run (some d) (some "") =
      ("Error: Unsupported hash algorithm:  not in [\x27sha256\x27, \x27md5\x27]", 1) := by
  simp [run, mainFn, hd, unsupportedMsg, SUPPORTED_HASH_ALGORITHMS]

/-- Witness for C9 at DATA="x". -/
theorem empty_algo_no_default_witness :
    run (some "x") (some "") =
      ("Error: Unsupported hash algorithm:  not in [\x27sha256\x27, \x27md5\x27]", 1) :=
  empty_algo_no_default "x" (by decide)

/-- C10: the DATA check precedes the ALGO check: when DATA is unset or
empty while the algorithm value is simultaneously outside the allow-list,
the reported error is the missing-data message, not the
unsupported-algorithm one. -/
theorem data_checked_before_algo (dataEnv : Option String)
    (hdata : dataFalsy dataEnv = true) (algoEnv : Option String)
    (halgo : algoEnv.getD "sha256" ∉ SUPPORTED_HASH_ALGORITHMS) :
    run dataEnv algoEnv = ("Error: " ++ missingDataMsg, 1) := by
  cases dataEnv with
  | none => rfl
  | some s =>
      have hs : s = "" := by simpa [dataFalsy] using hdata
      subst hs
      rfl

/-- Witness for C10 at DATA="" and ALGO="sha1". -/
theorem data_checked_before_algo_witness :
    run (some "") (some "sha1") = ("Error: " ++ missingDataMsg, 1) :=
  data_checked_before_algo (some "") (by decide) (some "sha1") (by decide)
